import Mathlib

/-!
# Verification of the finance-dashboard backend's subscription, webhook,
# transaction and budget logic.

Shallow embedding of the JavaScript backend:

* `Profile`, `SubscriptionRow`, `TransactionRow`, `NotificationRow` mirror the
  database tables the code reads and writes through the Supabase client.
* PostgREST's `.single()` modifier yields a row exactly when the query matched
  one row (zero rows and multiple rows both produce the PGRST116 "no single
  row" condition, which the code treats as an absent row); `querySingle`
  models this.
* Timestamps are integers (epoch instants); `e < now` models
  `new Date(e) < new Date()`.
* Route handlers become pure functions from the relevant database state and
  request data to a response value (and, for writes, a new database state).
-/

/-- A row of the `profiles` table, as read by the subscription checks:
`id` and the denormalized `subscription_status` flag written by the
GoHighLevel webhook. -/
structure Profile where
  id : String
  email : String
  subscription_status : Option String
  deriving Repr, DecidableEq

/-- A row of the `subscriptions` table: one provider-attributed subscription
instance, upserted by webhook handlers keyed on `external_id`. -/
structure SubscriptionRow where
  id : String
  user_id : String
  provider : String
  external_id : String
  status : String
  current_period_start : Option Int
  current_period_end : Option Int
  updated_at : Option Int
  deriving Repr, DecidableEq

/-- PostgREST `.single()`: the data is present exactly when the filtered
result set has exactly one row; zero or several rows give the PGRST116
condition, which every call site in this codebase treats as "no row". -/
def querySingle {α : Type} (l : List α) : Option α :=
  match l with
  | [x] => some x
  | _ => none

/-- The subscription object the middleware attaches to the request when it
grants access: either the synthesized profile-flag result
(`{id: profile-<id>, status: 'active', provider: 'ghl_webhook'}`) or a full
`subscriptions` row. -/
inductive GrantedSub where
  | fromProfile (profileId : String)
  | fromTable (s : SubscriptionRow)
  deriving Repr, DecidableEq

/-- Provider attribution of a granted subscription: the synthesized
profile-flag result is attributed to `ghl_webhook`. -/
def GrantedSub.provider : GrantedSub → String
  | .fromProfile _ => "ghl_webhook"
  | .fromTable s => s.provider

/-- Status carried by a granted subscription. -/
def GrantedSub.status : GrantedSub → String
  | .fromProfile _ => "active"
  | .fromTable s => s.status

/-- Outcome of the `requireSubscription` middleware: either the request
proceeds with a subscription attached, or it is rejected with an error code
and message (via `sendError`). -/
inductive GateResult where
  | allow (sub : GrantedSub)
  | reject (code : String) (msg : String)
  deriving Repr, DecidableEq

/-- Steps 2–5 of `requireSubscription` (src/middlewares/subscription.js):
look up the user's single `status = 'active'` subscription row; reject
`SUBSCRIPTION_INACTIVE` when none; reject as expired when
`current_period_end` is present and in the past; otherwise allow with the
row attached. -/
def subscriptionFallback (subs : List SubscriptionRow) (userId : String)
    (now : Int) : GateResult :=
  match querySingle (subs.filter fun s =>
      s.user_id == userId && s.status == "active") with
  | none =>
      .reject "SUBSCRIPTION_INACTIVE"
        "Necesitas una suscripción activa para acceder a esta función"
  | some s =>
      match s.current_period_end with
      | some e =>
          if e < now then .reject "SUBSCRIPTION_INACTIVE" "Tu suscripción ha expirado"
          else .allow (.fromTable s)
      | none => .allow (.fromTable s)

/-- The `requireSubscription` middleware (src/middlewares/subscription.js):
reject `UNAUTHORIZED` when unauthenticated; grant a synthesized `ghl_webhook`
subscription when the profile's `subscription_status` is `'active'`; else
fall back to the `subscriptions` table with the expiry check. -/
def requireSubscription (user : Option String) (profiles : List Profile)
    (subs : List SubscriptionRow) (now : Int) : GateResult :=
  match user with
  | none => .reject "UNAUTHORIZED" "Debes estar autenticado"
  | some userId =>
    match querySingle (profiles.filter fun p => p.id == userId) with
    | some profile =>
        if profile.subscription_status == some "active" then
          .allow (.fromProfile profile.id)
        else subscriptionFallback subs userId now
    | none => subscriptionFallback subs userId now

/-- The value `subscriptionService.getActive` resolves to: the synthesized
profile-flag object or a `subscriptions` row, presented with the fields the
service returns. -/
structure ActiveSubView where
  id : String
  user_id : String
  status : String
  provider : String
  current_period_start : Option Int
  current_period_end : Option Int
  deriving Repr, DecidableEq

/-- View of a `subscriptions` row as returned by `getActive`'s fallback. -/
def SubscriptionRow.toView (s : SubscriptionRow) : ActiveSubView :=
  { id := s.id, user_id := s.user_id, status := s.status,
    provider := s.provider, current_period_start := s.current_period_start,
    current_period_end := s.current_period_end }

/-- `subscriptionService.getActive` (services/subscription.js): if the
profile flag reads `'active'`, return the synthesized `ghl_webhook` result
with null billing period — no expiry check; otherwise return the user's
single `status = 'active'` subscription row, if any. -/
def subscriptionService.getActive (profiles : List Profile)
    (subs : List SubscriptionRow) (userId : String) : Option ActiveSubView :=
  match querySingle (profiles.filter fun p => p.id == userId) with
  | some profile =>
      if profile.subscription_status == some "active" then
        some { id := "profile-" ++ profile.id, user_id := userId,
               status := "active", provider := "ghl_webhook",
               current_period_start := none, current_period_end := none }
      else
        (querySingle (subs.filter fun s =>
          s.user_id == userId && s.status == "active")).map
          SubscriptionRow.toView
  | none =>
      (querySingle (subs.filter fun s =>
        s.user_id == userId && s.status == "active")).map
        SubscriptionRow.toView

/-- C1: a profile flagged `'active'` wins outright: the gate allows with the
synthesized `ghl_webhook` subscription and `getActive` returns the
synthesized `ghl_webhook` view, for every state of the `subscriptions`
table and every clock instant — no period-expiry check on this path. -/
theorem crm_flag_precedence
    (profiles : List Profile) (u : String) (p : Profile)
    (hp : profiles.filter (fun q => q.id == u) = [p])
    (hactive : p.subscription_status = some "active") :
    ∀ (subs : List SubscriptionRow) (now : Int),
      requireSubscription (some u) profiles subs now
        = .allow (.fromProfile p.id) ∧
      (GrantedSub.fromProfile p.id).provider = "ghl_webhook" ∧
      subscriptionService.getActive profiles subs u
        = some { id := "profile-" ++ p.id, user_id := u, status := "active",
                 provider := "ghl_webhook", current_period_start := none,
                 current_period_end := none } := by
  intro subs now
  refine ⟨?_, rfl, ?_⟩
  · simp [requireSubscription, hp, querySingle, hactive]
  · simp [subscriptionService.getActive, hp, querySingle, hactive]

/-- Witness for `crm_flag_precedence` at a concrete active-flag profile with
an expired cancelled-looking subscription row in the table. -/
theorem crm_flag_precedence_witness :
    requireSubscription (some "u1")
        [⟨"u1", "a@b.c", some "active"⟩]
        [⟨"s1", "u1", "stripe", "ext1", "active", some 0, some 10, none⟩]
        1000
      = .allow (.fromProfile "u1") ∧
    (GrantedSub.fromProfile "u1").provider = "ghl_webhook" ∧
    subscriptionService.getActive
        [⟨"u1", "a@b.c", some "active"⟩]
        [⟨"s1", "u1", "stripe", "ext1", "active", some 0, some 10, none⟩]
        "u1"
      = some { id := "profile-" ++ "u1", user_id := "u1", status := "active",
               provider := "ghl_webhook", current_period_start := none,
               current_period_end := none } :=
  crm_flag_precedence
    [⟨"u1", "a@b.c", some "active"⟩] "u1" ⟨"u1", "a@b.c", some "active"⟩
    (by decide) (by decide)
    [⟨"s1", "u1", "stripe", "ext1", "active", some 0, some 10, none⟩] 1000

/-- C2: without an active profile flag, a lone stored-`active` subscription
whose `current_period_end` is present and in the past is rejected by the
gate as `SUBSCRIPTION_INACTIVE` / expired, not returned. -/
theorem expired_stored_active_rejected
    (profiles : List Profile) (subs : List SubscriptionRow)
    (u : String) (s : SubscriptionRow) (e now : Int)
    (hprof : ∀ p, querySingle (profiles.filter fun q => q.id == u) = some p →
      p.subscription_status ≠ some "active")
    (hsub : subs.filter (fun t => t.user_id == u && t.status == "active") = [s])
    (hend : s.current_period_end = some e)
    (hpast : e < now) :
    requireSubscription (some u) profiles subs now
      = .reject "SUBSCRIPTION_INACTIVE" "Tu suscripción ha expirado" := by
  have hfb : subscriptionFallback subs u now
      = .reject "SUBSCRIPTION_INACTIVE" "Tu suscripción ha expirado" := by
    simp [subscriptionFallback, hsub, querySingle, hend, hpast]
  unfold requireSubscription
  cases hq : querySingle (profiles.filter fun p => p.id == u) with
  | none => simp only [hq]; exact hfb
  | some p =>
      have hne := hprof p hq
      simp only [hq, show (p.subscription_status == some "active") = false by
        simpa using hne, if_false]
      exact hfb

/-- Witness for `expired_stored_active_rejected`: no profile row, one
stored-active subscription that expired at instant 10, checked at 1000. -/
theorem expired_stored_active_rejected_witness :
    requireSubscription (some "u1") []
        [⟨"s1", "u1", "stripe", "ext1", "active", some 0, some 10, none⟩]
        1000
      = .reject "SUBSCRIPTION_INACTIVE" "Tu suscripción ha expirado" :=
  expired_stored_active_rejected [] _ "u1"
    ⟨"s1", "u1", "stripe", "ext1", "active", some 0, some 10, none⟩ 10 1000
    (by intro p hp; simp [querySingle] at hp) (by decide) rfl (by decide)

/-- Payload extracted from a provider "subscription updated" webhook event,
as passed to `subscriptionService.upsertFromWebhook`. -/
structure WebhookSubPayload where
  userId : String
  provider : String
  externalId : String
  status : String
  periodStart : Option Int
  periodEnd : Option Int
  deriving Repr, DecidableEq

/-- The field update `upsertFromWebhook` applies to an existing
`subscriptions` row: status, billing period, and `updated_at := now`. -/
def applyWebhookUpdate (p : WebhookSubPayload) (now : Int)
    (s : SubscriptionRow) : SubscriptionRow :=
  { s with status := p.status, current_period_start := p.periodStart,
           current_period_end := p.periodEnd, updated_at := some now }

/-- The row `upsertFromWebhook` inserts when no row matches the external id
(`updated_at` left to the database default, modelled as absent). -/
def insertedRow (p : WebhookSubPayload) (freshId : String) : SubscriptionRow :=
  { id := freshId, user_id := p.userId, provider := p.provider,
    external_id := p.externalId, status := p.status,
    current_period_start := p.periodStart,
    current_period_end := p.periodEnd, updated_at := none }

/-- `subscriptionService.upsertFromWebhook` (services/subscription.js):
look up an existing row by `external_id` (`.single()`); if found, update it
in place and report `created = false`; otherwise insert a new row with a
database-generated id (`freshId`) and report `created = true`. Returns the
new table state, the returned subscription row, and the `created` flag. -/
def subscriptionService.upsertFromWebhook (db : List SubscriptionRow)
    (freshId : String) (now : Int) (p : WebhookSubPayload) :
    List SubscriptionRow × SubscriptionRow × Bool :=
  match querySingle (db.filter fun s => s.external_id == p.externalId) with
  | some existing =>
      (db.map fun s =>
         if s.id == existing.id then applyWebhookUpdate p now s else s,
       applyWebhookUpdate p now existing, false)
  | none =>
      (db ++ [insertedRow p freshId], insertedRow p freshId, true)

/-- Filtering commutes with mapping a function that does not change the
filter's verdict. -/
theorem filter_map_of_pred_fixed {α : Type} (g : α → α) (f : α → Bool)
    (h : ∀ a, f (g a) = f a) (l : List α) :
    (l.map g).filter f = (l.filter f).map g := by
  induction l with
  | nil => rfl
  | cons a t ih =>
      cases hfa : f a with
      | true => simp [List.filter_cons, h a, hfa, ih]
      | false => simp [List.filter_cons, h a, hfa, ih]

/-- C3: delivering the same "subscription updated" payload twice, starting
from a table with no row for its external id, is idempotent: the first call
creates (`created = true`), the repeat updates (`created = false`), the
table ends with exactly one row keyed by that external id, and that row —
and the returned record — carry the (identical) second payload's status and
billing-period fields. -/
theorem upsert_from_webhook_idempotent
    (db db1 db2 : List SubscriptionRow) (s1 s2 : SubscriptionRow)
    (c1 c2 : Bool) (id1 id2 : String) (t1 t2 : Int) (p : WebhookSubPayload)
    (hfresh : db.filter (fun s => s.external_id == p.externalId) = [])
    (h1 : subscriptionService.upsertFromWebhook db id1 t1 p = (db1, s1, c1))
    (h2 : subscriptionService.upsertFromWebhook db1 id2 t2 p = (db2, s2, c2)) :
    c1 = true ∧ c2 = false ∧
    db2.filter (fun s => s.external_id == p.externalId)
      = [applyWebhookUpdate p t2 (insertedRow p id1)] ∧
    s2.status = p.status ∧ s2.current_period_start = p.periodStart ∧
    s2.current_period_end = p.periodEnd := by
  simp only [subscriptionService.upsertFromWebhook, hfresh, querySingle,
    Prod.mk.injEq] at h1
  obtain ⟨hdb1, hs1, hc1⟩ := h1
  subst hdb1
  have hf1 : (db ++ [insertedRow p id1]).filter
      (fun s => s.external_id == p.externalId) = [insertedRow p id1] := by
    simp [List.filter_append, hfresh, insertedRow]
  simp only [subscriptionService.upsertFromWebhook, hf1, querySingle,
    Prod.mk.injEq] at h2
  obtain ⟨hdb2, hs2, hc2⟩ := h2
  subst hdb2
  have hpres : ∀ s0 : SubscriptionRow,
      ((if s0.id == (insertedRow p id1).id then applyWebhookUpdate p t2 s0
        else s0).external_id == p.externalId)
        = (s0.external_id == p.externalId) := by
    intro s0
    split <;> simp [applyWebhookUpdate]
  refine ⟨hc1.symm, hc2.symm, ?_, ?_, ?_, ?_⟩
  · rw [filter_map_of_pred_fixed _ _ hpres, hf1]
    simp
  · rw [← hs2]; rfl
  · rw [← hs2]; rfl
  · rw [← hs2]; rfl

/-- A sample "subscription updated" payload used to exercise the upsert. -/
def samplePayload : WebhookSubPayload :=
  ⟨"u9", "stripe", "ext9", "active", some 100, some 200⟩

/-- Witness for `upsert_from_webhook_idempotent`: double delivery of
`samplePayload` into an empty table. -/
theorem upsert_from_webhook_idempotent_witness :
    (true : Bool) = true ∧ (false : Bool) = false ∧
    ([applyWebhookUpdate samplePayload 7 (insertedRow samplePayload "id1")].filter
        (fun s => s.external_id == samplePayload.externalId))
      = [applyWebhookUpdate samplePayload 7 (insertedRow samplePayload "id1")] ∧
    (applyWebhookUpdate samplePayload 7 (insertedRow samplePayload "id1")).status
      = samplePayload.status ∧
    (applyWebhookUpdate samplePayload 7
        (insertedRow samplePayload "id1")).current_period_start
      = samplePayload.periodStart ∧
    (applyWebhookUpdate samplePayload 7
        (insertedRow samplePayload "id1")).current_period_end
      = samplePayload.periodEnd :=
  upsert_from_webhook_idempotent []
    [insertedRow samplePayload "id1"]
    [applyWebhookUpdate samplePayload 7 (insertedRow samplePayload "id1")]
    (insertedRow samplePayload "id1")
    (applyWebhookUpdate samplePayload 7 (insertedRow samplePayload "id1"))
    true false "id1" "id2" 3 7 samplePayload rfl rfl rfl

/-- The status map inside `stripeService.handleSubscriptionUpdate`
(services/stripe.js): Stripe's status vocabulary to the internal one, with
unmapped values defaulting to `'none'`. -/
def stripeSubscriptionStatusMap : List (String × String) :=
  [("active", "active"), ("past_due", "active"), ("canceled", "cancelled"),
   ("incomplete", "none"), ("incomplete_expired", "none"),
   ("trialing", "active"), ("unpaid", "cancelled")]

/-- `statusMap[subscription.status] || 'none'` in
`stripeService.handleSubscriptionUpdate`. -/
def stripeService.mapSubscriptionStatus (s : String) : String :=
  (stripeSubscriptionStatusMap.lookup s).getD "none"

/-- The status map inside `ghlService.mapStatus` (services/gohighlevel.js). -/
def ghlStatusMap : List (String × String) :=
  [("active", "active"), ("cancelled", "cancelled"), ("canceled", "cancelled"),
   ("past_due", "past_due"), ("unpaid", "past_due"), ("paused", "inactive")]

/-- JavaScript `String.prototype.toLowerCase` on the ASCII vocabulary the
status maps use: lower-case every character. -/
def jsToLowerCase (s : String) : String := String.mk (s.data.map Char.toLower)

/-- `ghlService.mapStatus`: lower-case the provider status (absent input
behaves like an unmapped key) and look it up, defaulting to `'inactive'`. -/
def ghlService.mapStatus (ghlStatus : Option String) : String :=
  match ghlStatus with
  | none => "inactive"
  | some s => (ghlStatusMap.lookup (jsToLowerCase s)).getD "inactive"

/-- `subscriptionService.markPastDue` (services/subscription.js): set the
matching row's status to `'past_due'` and stamp `updated_at`. -/
def subscriptionService.markPastDue (db : List SubscriptionRow)
    (subscriptionId : String) (now : Int) : List SubscriptionRow :=
  db.map fun s =>
    if s.id == subscriptionId then
      { s with status := "past_due", updated_at := some now }
    else s

/-- C6: the provider vocabularies disagree on `past_due`: the Stripe
subscription-update path maps it to the internal value `'active'`, while the
GoHighLevel mapping sends `past_due`/`unpaid` to the distinct internal state
`'past_due'`, which is also what `markPastDue` writes. -/
theorem past_due_mapping_disagreement :
    stripeService.mapSubscriptionStatus "past_due" = "active" ∧
    ghlService.mapStatus (some "past_due") = "past_due" ∧
    ghlService.mapStatus (some "unpaid") = "past_due" ∧
    "active" ≠ "past_due" ∧
    subscriptionService.markPastDue
        [⟨"s1", "u1", "ghl", "ext1", "active", none, none, none⟩] "s1" 5
      = [⟨"s1", "u1", "ghl", "ext1", "past_due", none, none, some 5⟩] :=
  ⟨rfl, by decide, by decide, by decide, rfl⟩

/-- HTTP response of a webhook route: the success envelope
`{received: true, ...}` (with the swallowed error message, if processing
threw) or an error envelope from `sendError`. -/
inductive WebhookResp where
  | success (received : Bool) (errorMsg : Option String)
  | failure (code : String) (msg : String)
  deriving Repr, DecidableEq

/-- The `error` field the catch-all handler spreads into the success
envelope when event processing throws. -/
def processingErrorMsg : Except String Unit → Option String
  | .ok _ => none
  | .error m => some m

/-- `POST /webhooks/stripe` (routes/webhooks.js): reject `UNAUTHORIZED` when
the signature header is missing outside development; verify the signature
only outside development and only when a webhook secret is configured,
rejecting `UNAUTHORIZED` on failure; then acknowledge with
`{received: true}` even when processing throws. -/
def stripeWebhookRoute (isDev secretConfigured : Bool)
    (signature : Option String) (signatureValid : Bool)
    (processing : Except String Unit) : WebhookResp :=
  if signature.isNone && !isDev then
    .failure "UNAUTHORIZED" "Firma de webhook faltante"
  else if !isDev && secretConfigured && !signatureValid then
    .failure "UNAUTHORIZED" "Firma de webhook inválida"
  else
    .success true (processingErrorMsg processing)

/-- `POST /webhooks/gohighlevel` (routes/webhooks.js): verify the shared
secret signature only outside development and only when a secret is
configured, rejecting `UNAUTHORIZED` on failure; then acknowledge with
`{received: true}` even when processing throws. -/
def ghlWebhookRoute (isDev secretConfigured signatureValid : Bool)
    (processing : Except String Unit) : WebhookResp :=
  if !isDev && secretConfigured && !signatureValid then
    .failure "UNAUTHORIZED" "Firma de webhook inválida"
  else
    .success true (processingErrorMsg processing)

/-- C5 counterexample: in production with no Stripe webhook secret
configured — a delivery whose signature check is skipped, per the claim —
and no signature header, the Stripe route answers `UNAUTHORIZED` even
though event processing would succeed; the response is not the success
envelope the claim promises for every skipped-check delivery. -/
theorem stripe_missing_signature_counterexample :
    stripeWebhookRoute false false none true (Except.ok ())
        = .failure "UNAUTHORIZED" "Firma de webhook faltante" ∧
    ∀ r e, stripeWebhookRoute false false none true (Except.ok ())
        ≠ .success r e := by
  refine ⟨rfl, ?_⟩
  intro r e h
  exact WebhookResp.noConfusion h

/-- C5 amended: a delivery that reaches event processing — signature valid,
or checking skipped in development or for lack of a configured secret,
with the Stripe route additionally requiring a signature header outside
development — is acknowledged with the success envelope even when
processing throws; a non-success response only arises from the signature
phase (missing header on the Stripe route outside development, or a failed
verification), and is always `UNAUTHORIZED`. -/
theorem webhook_ack_despite_processing_error
    (isDev secretConfigured signatureValid : Bool)
    (signature : Option String) (processing : Except String Unit) :
    ((signature.isSome = true ∨ isDev = true) →
      (isDev = true ∨ secretConfigured = false ∨ signatureValid = true) →
      stripeWebhookRoute isDev secretConfigured signature signatureValid
          processing
        = .success true (processingErrorMsg processing)) ∧
    ((isDev = true ∨ secretConfigured = false ∨ signatureValid = true) →
      ghlWebhookRoute isDev secretConfigured signatureValid processing
        = .success true (processingErrorMsg processing)) ∧
    (∀ c m, stripeWebhookRoute isDev secretConfigured signature signatureValid
          processing = .failure c m →
      c = "UNAUTHORIZED" ∧
        ((signature = none ∧ isDev = false) ∨
         (isDev = false ∧ secretConfigured = true ∧ signatureValid = false))) ∧
    (∀ c m, ghlWebhookRoute isDev secretConfigured signatureValid processing
          = .failure c m →
      c = "UNAUTHORIZED" ∧ isDev = false ∧ secretConfigured = true ∧
        signatureValid = false) := by
  cases isDev <;> cases secretConfigured <;> cases signatureValid <;>
    cases signature <;>
      simp [stripeWebhookRoute, ghlWebhookRoute]

/-- Witness for `webhook_ack_despite_processing_error`: production, secret
configured, valid signature, processing throws — both routes still answer
the success envelope carrying the swallowed error message. -/
theorem webhook_ack_despite_processing_error_witness :
    stripeWebhookRoute false true (some "sig") true (Except.error "boom")
      = .success true (some "boom") ∧
    ghlWebhookRoute false true true (Except.error "boom")
      = .success true (some "boom") :=
  ⟨(webhook_ack_despite_processing_error false true true (some "sig")
      (Except.error "boom")).1 (by decide) (by decide),
   (webhook_ack_despite_processing_error false true true (some "sig")
      (Except.error "boom")).2.1 (by decide)⟩

/-- JavaScript `Math.round`: round half toward positive infinity. -/
def jsRound (x : ℚ) : ℤ := ⌊x + 1 / 2⌋

/-- `Math.round(x * 100) / 100`: the two-decimal rounding the budget
overview applies to every monetary result. -/
def round2 (x : ℚ) : ℚ := (jsRound (x * 100) : ℚ) / 100

/-- A transaction as selected by the budget overview query
(`select type, amount, category`). -/
structure TransactionRec where
  type : String
  amount : ℚ
  category : Option String
  deriving Repr, DecidableEq

/-- A `budget_pockets` row as the overview uses it. -/
structure BudgetPocket where
  id : String
  name : String
  percentage : ℚ
  deriving Repr, DecidableEq

/-- One entry of the overview's `pocketOverview` array. -/
structure PocketOverviewEntry where
  id : String
  name : String
  percentage : ℚ
  budget_value : ℚ
  actual_value : ℚ
  percentage_real : ℚ
  deviation_amount : ℚ
  deviation_percent : ℚ
  status : String
  deriving Repr, DecidableEq

/-- The category label a transaction is grouped under:
`t.category || 'Sin categoría'`. -/
def effectiveCategory (t : TransactionRec) : String :=
  t.category.getD "Sin categoría"

/-- `expensesByCategory[cat] || 0`: the month's expense total grouped under
a category label (absent keys read as 0). -/
def expensesByCategory (txs : List TransactionRec) (cat : String) : ℚ :=
  ((txs.filter fun t => t.type == "expense" && effectiveCategory t == cat).map
    (fun t => t.amount)).sum

/-- One pocket's overview entry (`pockets.map(...)` body in
`GET /budget/overview`, routes/categories.js): two-decimal-rounded budget
from the monthly estimate and the pocket's percentage, actual spend joined
by exact pocket-name match, deviations with a `budgetValue > 0` guard on
both divisions, and the over/under/on_track status. -/
def mkPocketOverviewEntry (monthlyEstimate : ℚ) (txs : List TransactionRec)
    (pocket : BudgetPocket) : PocketOverviewEntry :=
  let budgetValue := round2 (monthlyEstimate * pocket.percentage / 100)
  let actualValue := expensesByCategory txs pocket.name
  let percentageReal :=
    if budgetValue > 0 then round2 (actualValue / budgetValue * 100) else 0
  let deviationAmount := round2 (actualValue - budgetValue)
  let deviationPercent :=
    if budgetValue > 0 then
      round2 ((actualValue - budgetValue) / budgetValue * 100)
    else 0
  { id := pocket.id, name := pocket.name, percentage := pocket.percentage,
    budget_value := budgetValue, actual_value := round2 actualValue,
    percentage_real := percentageReal, deviation_amount := deviationAmount,
    deviation_percent := deviationPercent,
    status := if deviationAmount > 0 then "over"
      else if deviationAmount < 0 then "under" else "on_track" }

/-- `GET /budget/overview`, steps 1–6: `monthly_estimate` is the annual
revenue target (0 when no `budget_config` row) divided by 12, and each
pocket is mapped to its overview entry. -/
def budgetOverview (annualTargetCfg : Option ℚ) (pockets : List BudgetPocket)
    (txs : List TransactionRec) : ℚ × List PocketOverviewEntry :=
  let annualTarget := annualTargetCfg.getD 0
  let monthlyEstimate := annualTarget / 12
  (monthlyEstimate, pockets.map (mkPocketOverviewEntry monthlyEstimate txs))

/-- C4: the spec's worked example: annual target 1,200,000, one pocket
`Nómina` at 50%, month expense 650,000 under category `Nómina` gives
`monthly_estimate = 100000`, `budget_value = 50000`,
`actual_value = 650000`, `deviation_amount = 600000`, `status = "over"`. -/
theorem budget_overview_worked_example :
    budgetOverview (some 1200000) [⟨"p1", "Nómina", 50⟩]
        [⟨"expense", 650000, some "Nómina"⟩]
      = (100000,
         [{ id := "p1", name := "Nómina", percentage := 50,
            budget_value := 50000, actual_value := 650000,
            percentage_real := 1300, deviation_amount := 600000,
            deviation_percent := 1200, status := "over" }]) := by
  norm_num [budgetOverview, mkPocketOverviewEntry, expensesByCategory,
    effectiveCategory, round2, jsRound, List.filter]

/-- C9: whenever a pocket's computed `budget_value` is 0, the overview's
`deviation_percent` and `percentage_real` are the guarded constant 0 — the
divisions by `budget_value` are never taken with a zero divisor. -/
theorem pocket_zero_budget_division_guard
    (monthlyEstimate : ℚ) (txs : List TransactionRec) (pocket : BudgetPocket)
    (h : (mkPocketOverviewEntry monthlyEstimate txs pocket).budget_value = 0) :
    (mkPocketOverviewEntry monthlyEstimate txs pocket).deviation_percent = 0 ∧
    (mkPocketOverviewEntry monthlyEstimate txs pocket).percentage_real = 0 := by
  simp only [mkPocketOverviewEntry] at h ⊢
  rw [h]
  norm_num

/-- Witness for `pocket_zero_budget_division_guard`: a pocket at 0% has
`budget_value = 0`, and its deviation and real percentages are 0. -/
theorem pocket_zero_budget_division_guard_witness :
    (mkPocketOverviewEntry 5 [] ⟨"p0", "Ops", 0⟩).budget_value = 0 ∧
    (mkPocketOverviewEntry 5 [] ⟨"p0", "Ops", 0⟩).deviation_percent = 0 ∧
    (mkPocketOverviewEntry 5 [] ⟨"p0", "Ops", 0⟩).percentage_real = 0 := by
  have hb : (mkPocketOverviewEntry 5 [] ⟨"p0", "Ops", 0⟩).budget_value = 0 := by
    norm_num [mkPocketOverviewEntry, round2, jsRound]
  exact ⟨hb, pocket_zero_budget_division_guard 5 [] ⟨"p0", "Ops", 0⟩ hb⟩

/-- A row of the `transactions` table. -/
structure TransactionRow where
  id : String
  user_id : String
  type : String
  amount : ℚ
  category : Option String
  description : Option String
  date : String
  deriving Repr, DecidableEq

/-- A JSON route outcome: the success envelope's data or the `sendError`
envelope's code and message. -/
inductive ApiResult (α : Type) where
  | ok (data : α)
  | err (code : String) (msg : String)
  deriving Repr, DecidableEq

/-- `GET /transactions/:id` (routes/transactions.js): select the single row
matching both the id and the authenticated owner; any failure (no row, or
not the caller's row) answers `NOT_FOUND`. -/
def getTransactionById (db : List TransactionRow) (userId id : String) :
    ApiResult TransactionRow :=
  match querySingle (db.filter fun t => t.id == id && t.user_id == userId) with
  | some t => .ok t
  | none => .err "NOT_FOUND" "Transacción no encontrada"

/-- C7: a fetch-one by user `a` for a transaction id every row of which is
owned by a different user `b` answers `NOT_FOUND` — never the record — and
is indistinguishable from the same request against a table with that id
absent altogether. -/
theorem transaction_ownership_isolation
    (db : List TransactionRow) (a b i : String) (hab : a ≠ b)
    (hown : ∀ t ∈ db, t.id = i → t.user_id = b) :
    getTransactionById db a i = .err "NOT_FOUND" "Transacción no encontrada" ∧
    getTransactionById db a i
      = getTransactionById (db.filter fun t => !(t.id == i)) a i := by
  have hnil : ∀ l : List TransactionRow, (∀ t ∈ l, t ∈ db) →
      l.filter (fun t => t.id == i && t.user_id == a) = [] := by
    intro l hsub
    rw [List.filter_eq_nil_iff]
    intro t ht
    simp only [Bool.and_eq_true, beq_iff_eq, not_and]
    intro hid hua
    exact hab ((hua.symm.trans (hown t (hsub t ht) hid)))
  have h1 := hnil db fun t ht => ht
  have h2 := hnil (db.filter fun t => !(t.id == i))
    fun t ht => (List.mem_filter.mp ht).1
  constructor
  · simp [getTransactionById, h1, querySingle]
  · simp [getTransactionById, h1, h2, querySingle]

/-- Witness for `transaction_ownership_isolation`: user `A` requests the
transaction `t1` owned by user `B`. -/
theorem transaction_ownership_isolation_witness :
    getTransactionById
        [⟨"t1", "B", "expense", 10, none, none, "2026-01-02"⟩] "A" "t1"
      = .err "NOT_FOUND" "Transacción no encontrada" ∧
    getTransactionById
        [⟨"t1", "B", "expense", 10, none, none, "2026-01-02"⟩] "A" "t1"
      = getTransactionById
          (([⟨"t1", "B", "expense", 10, none, none, "2026-01-02"⟩] :
            List TransactionRow).filter fun t => !(t.id == "t1")) "A" "t1" :=
  transaction_ownership_isolation
    [⟨"t1", "B", "expense", 10, none, none, "2026-01-02"⟩] "A" "B" "t1"
    (by decide) (by decide)

/-- A row of the `notifications` table: `user_id` is absent for a broadcast
notification, present for a personal one. -/
structure NotificationRow where
  id : String
  user_id : Option String
  title : String
  message : Option String
  type : String
  read : Bool
  deriving Repr, DecidableEq

/-- `PUT /notifications/:id/read` (routes/categories.js): look the
notification up by id; `NOT_FOUND` when absent; when it is the caller's
personal notification, set its `read` flag; for a broadcast
(`user_id` null) the handler changes nothing; either way the response is
the success envelope `{read: true}`. Returns the new table state and the
response. -/
def markNotificationRead (db : List NotificationRow) (userId id : String) :
    List NotificationRow × ApiResult Bool :=
  match querySingle (db.filter fun n => n.id == id) with
  | none => (db, .err "NOT_FOUND" "Notificación no encontrada")
  | some notif =>
      if notif.user_id == some userId then
        (db.map fun n =>
          if n.id == id && n.user_id == some userId then
            { n with read := true }
          else n,
         .ok true)
      else
        (db, .ok true)

/-- C10: marking a broadcast notification (null `user_id`) as read reports
success `{read: true}` while leaving every notification row unchanged,
whereas for a personal notification owned by the caller the same endpoint
sets the row's `read` flag to true. -/
theorem broadcast_mark_read_is_noop
    (db : List NotificationRow) (u i : String) (notif : NotificationRow)
    (hq : querySingle (db.filter fun n => n.id == i) = some notif) :
    (notif.user_id = none →
      markNotificationRead db u i = (db, .ok true)) ∧
    (notif.user_id = some u →
      markNotificationRead db u i
        = (db.map fun n =>
            if n.id == i && n.user_id == some u then { n with read := true }
            else n,
           .ok true) ∧
      ∀ n ∈ (markNotificationRead db u i).1,
        n.id = i → n.user_id = some u → n.read = true) := by
  constructor
  · intro h
    simp [markNotificationRead, hq, h]
  · intro h
    have hres : markNotificationRead db u i
        = (db.map fun n =>
            if n.id == i && n.user_id == some u then { n with read := true }
            else n,
           .ok true) := by
      simp [markNotificationRead, hq, h]
    refine ⟨hres, ?_⟩
    intro n hn hid huid
    rw [hres] at hn
    obtain ⟨m, hm, rfl⟩ := List.mem_map.mp hn
    by_cases hc : (m.id == i && m.user_id == some u) = true
    · simp [hc]
    · exfalso
      rw [if_neg hc] at hid huid
      exact hc (by simp [hid, huid])

/-- Witness for `broadcast_mark_read_is_noop`: a broadcast row is untouched
and acknowledged; a personal row owned by the caller gets `read := true`. -/
theorem broadcast_mark_read_is_noop_witness :
    (markNotificationRead [⟨"n1", none, "promo", none, "promo", false⟩]
        "A" "n1"
      = ([⟨"n1", none, "promo", none, "promo", false⟩], .ok true)) ∧
    (markNotificationRead [⟨"n2", some "A", "hey", none, "info", false⟩]
        "A" "n2"
      = ([⟨"n2", some "A", "hey", none, "info", true⟩], .ok true)) :=
  ⟨(broadcast_mark_read_is_noop
      [⟨"n1", none, "promo", none, "promo", false⟩] "A" "n1"
      ⟨"n1", none, "promo", none, "promo", false⟩ (by decide) |>.1) rfl,
   by
    have h := (broadcast_mark_read_is_noop
      [⟨"n2", some "A", "hey", none, "info", false⟩] "A" "n2"
      ⟨"n2", some "A", "hey", none, "info", false⟩ (by decide) |>.2) rfl
    simpa using h.1⟩

/-- The pagination block of the transaction list response
(`GET /transactions`, routes/transactions.js), together with the offset the
route passes to the database range. -/
structure PaginationMeta where
  page : Int
  limit : Int
  offset : Int
  total : Nat
  totalPages : Int
  deriving Repr, DecidableEq

/-- `GET /transactions` pagination:
`pageNum = Math.max(1, parseInt(page))`,
`limitNum = Math.min(100, Math.max(1, parseInt(limit)))`,
`offset = (pageNum - 1) * limitNum`, and the reported block echoes the
clamped values with `totalPages = Math.ceil(count / limitNum)`. -/
def transactionsPagination (page limit : Int) (total : Nat) : PaginationMeta :=
  let pageNum := max 1 page
  let limitNum := min 100 (max 1 limit)
  { page := pageNum, limit := limitNum, offset := (pageNum - 1) * limitNum,
    total := total, totalPages := ⌈(total : ℚ) / (limitNum : ℚ)⌉ }

/-- C8: the effective pagination parameters are clamped — a limit above 100
is reduced to 100, a limit below 1 raised to 1, a page below 1 raised to
1 — and the reported fields carry the clamped values, which always lie in
range. -/
theorem pagination_clamped (page limit : Int) (total : Nat) :
    (100 < limit → (transactionsPagination page limit total).limit = 100) ∧
    (limit < 1 → (transactionsPagination page limit total).limit = 1) ∧
    (page < 1 → (transactionsPagination page limit total).page = 1) ∧
    1 ≤ (transactionsPagination page limit total).limit ∧
    (transactionsPagination page limit total).limit ≤ 100 ∧
    1 ≤ (transactionsPagination page limit total).page := by
  simp only [transactionsPagination]
  omega

/-- Witness for `pagination_clamped`: `limit=1000` reads back as 100,
`limit=-5` as 1, and `page=0` as 1. -/
theorem pagination_clamped_witness :
    (transactionsPagination 0 1000 0).limit = 100 ∧
    (transactionsPagination 0 (-5) 0).limit = 1 ∧
    (transactionsPagination 0 1000 0).page = 1 :=
  ⟨(pagination_clamped 0 1000 0).1 (by decide),
   (pagination_clamped 0 (-5) 0).2.1 (by decide),
   (pagination_clamped 0 1000 0).2.2.1 (by decide)⟩
